import Mathlib

/-
Verification of the wambata-resu Result/Flow library.

The repository holds two generations of the library:
  * the `packages/ecosystem.resu` generation (result partials built on
    `_Helpers.Result.ResultConstructor`, flow partials `public.try.ts`,
    `public.match.ts`, and the pipe in `src/unnamed/part_005`), embedded
    below in namespace `Resu`;
  * the top-level `src/src` generation (`src/src/modules/result/index.ts`
    with its inlined `public.ok.ts` / `public.error.ts`, and
    `src/src/modules/flow/partials/public.pipe.ts`), embedded below in
    namespace `Src`.
Each definition's doc comment names the source it translates.
-/

namespace Resu

/-- Val models the JavaScript values the library manipulates: `undefined`,
`null`, booleans, (integer) numbers, strings, symbols, host `Error`
instances (`exn name id`, where `name` is the instance's `name` property
and `id` its identity), opaque non-Result objects, and genuine Result
instances.  `Val.ok data tag` / `Val.error data tag` stand exactly for the
objects carrying the per-variant unforgeable symbol marker, which in the
source can only be produced by the `Ok` / `Error` constructors; a plain
object that merely has a `status` field is a `Val.obj`. A `tag` of `none`
models the JavaScript `null` tag. -/
inductive Val : Type where
  | undefined : Val
  | null : Val
  | bool (b : Bool) : Val
  | num (n : Int) : Val
  | str (s : String) : Val
  | sym (id : Nat) : Val
  | exn (name : String) (id : Nat) : Val
  | obj (id : Nat) : Val
  | ok (data : Val) (tag : Option String) : Val
  | error (data : Val) (tag : Option String) : Val
deriving DecidableEq, Repr

/-- truthy models JavaScript truthiness of a `Val` (objects, symbols and
exception instances are always truthy; `undefined`, `null`, `false`, `0`
and the empty string are falsy). -/
def truthy : Val → Bool
  | .undefined => false
  | .null => false
  | .bool b => b
  | .num n => n != 0
  | .str s => s != ""
  | _ => true

/-- getData models reading the `data` property: on a Result it is the
payload, on anything else it is `undefined`. -/
def getData : Val → Val
  | .ok d _ => d
  | .error d _ => d
  | _ => .undefined

/-- tagOf models reading the `tag` property of a Result (`none` = `null`). -/
def tagOf : Val → Option String
  | .ok _ t => t
  | .error _ t => t
  | _ => none

/-- IsOk translates `_Ok.IsOk` (ecosystem.resu `public.ok.ts`): an object
carrying the `OK_SYMBOL` marker, i.e. exactly the values built by the `Ok`
constructor. -/
def IsOk : Val → Bool
  | .ok _ _ => true
  | _ => false

/-- IsError translates `_Error.IsError` (ecosystem.resu `public.error.ts`,
src/unnamed/part_002): an object carrying the `ERROR_SYMBOL` marker. -/
def IsError : Val → Bool
  | .error _ _ => true
  | _ => false

/-- IsResult translates `_Result.IsResult`: `IsOk(value) || IsError(value)`. -/
def IsResult (v : Val) : Bool :=
  IsOk v || IsError v

/-- normalizeData translates the data normalization of
`_Helpers.Result.ResultConstructor` (ecosystem.resu `private.helpers.ts`,
lines 70-71): `[undefined, null, void 0].includes(params.data)` stores
`null`; every other value, falsy ones included, is kept as is. -/
def normalizeData (d : Val) : Val :=
  if d = .undefined || d = .null then .null else d

/-- normalizeTag translates the tag normalization of
`_Helpers.Result.ResultConstructor` (`params.tag ||= null`, line 74): a
falsy tag (omitted, `null` or the empty string — the only falsy string)
becomes `null`. -/
def normalizeTag : Option String → Option String
  | some s => if s = "" then none else some s
  | none => none

/-- Ok translates the `_Ok.Ok` constructor of the ecosystem.resu
generation (src/unnamed/part_003 lines 29-43, via
`_Helpers.Result.ResultConstructor`), with the `params` object passed as
explicit `data` / `tag` arguments (`Val.undefined` / `none` encode omission).
The logging side effect is modelled separately by `Logger.OkRun`. -/
def Ok (data : Val) (tag : Option String) : Val :=
  .ok (normalizeData data) (normalizeTag tag)

/-- Error translates the `_Error.Error` constructor of the ecosystem.resu
generation (src/unnamed/part_002, via `ResultConstructor`). -/
def Error (data : Val) (tag : Option String) : Val :=
  .error (normalizeData data) (normalizeTag tag)

/-- TagArg models the optional `tag?` parameter of the `...From` helpers:
`none` is an omitted argument (`tag === undefined`), `some t` a supplied
tag (`some none` = an explicitly supplied `null`). -/
abbrev TagArg := Option (Option String)

/-- OkFrom translates `_Ok.OkFrom` of the ecosystem.resu generation
(`private.helpers.ts` concatenated `public.ok.ts`, lines 188-204):
if the value is an Ok, rebuild it keeping its data, the new tag taking
over only when the argument was supplied (`tag !== undefined`); if the
value is an Error, carry its `data` over into a fresh Ok; otherwise wrap
the value itself as the data of a fresh Ok. -/
def OkFrom (value : Val) (tag : TagArg) : Val :=
  match value with
  | .ok d t => Ok d (tag.getD t)
  | .error d t => Ok d (tag.getD t)
  | v => Ok v (tag.getD none)

/-- ErrorFrom translates `_Error.ErrorFrom` of the ecosystem.resu
generation (src/unnamed/part_002): symmetric to `OkFrom`. -/
def ErrorFrom (value : Val) (tag : TagArg) : Val :=
  match value with
  | .error d t => Error d (tag.getD t)
  | .ok d t => Error d (tag.getD t)
  | v => Error v (tag.getD none)

/-- OkFromUnlessError translates `_Ok.OkFromUnlessError`: pass an Error
through unchanged, otherwise `OkFrom`. -/
def OkFromUnlessError (value : Val) (tag : TagArg) : Val :=
  if IsError value then value else OkFrom value tag

/-- ErrorFromUnlessOk translates `_Error.ErrorFromUnlessOk`: pass an Ok
through unchanged, otherwise `ErrorFrom`. -/
def ErrorFromUnlessOk (value : Val) (tag : TagArg) : Val :=
  if IsOk value then value else ErrorFrom value tag

/-- Normalized holds of the Results the constructors can actually
produce: the stored data is never `undefined`/left unnormalized and the
stored tag is never the empty string.  Non-Results are vacuously
normalized. -/
def Normalized (v : Val) : Bool :=
  match v with
  | .ok d t => (normalizeData d = d) && (normalizeTag t = t)
  | .error d t => (normalizeData d = d) && (normalizeTag t = t)
  | _ => true

/-- statusStr models reading the `status` property of a Result. -/
def statusStr : Val → String
  | .ok _ _ => "ok"
  | .error _ _ => "error"
  | _ => "undefined"

/-- Matcher models the handler map passed to `Match`: an association of
match keys to handler callbacks. -/
abbrev Matcher := List (String × (Val → Val))

/-- matchKey translates line 202 of ecosystem.resu `public.match.ts`:
`result.tag ? status + ":" + tag : status` (the tag is tested for
truthiness, so an empty-string tag also selects the bare status key). -/
def matchKey (r : Val) : String :=
  match tagOf r with
  | some t => if t = "" then statusStr r else statusStr r ++ ":" ++ t
  | none => statusStr r

/-- Match translates `_Match.Match` (ecosystem.resu `public.match.ts`
lines 193-208): look the compound key up, fall back on the bare status
key (`matcher[matchKey] || matcher[result.status]`), return the Result
itself when neither is present, and otherwise normalize the chosen
handler's return with `OkFromUnlessError`. -/
def Match (r : Val) (m : Matcher) : Val :=
  let handler :=
    match m.lookup (matchKey r) with
    | some h => some h
    | none => m.lookup (statusStr r)
  match handler with
  | none => r
  | some h => OkFromUnlessError (h r) none

/-- CbOutcome models the observable behavior of a zero-argument callback
handed to `Try.Sync`: it either returns a value or throws one. -/
inductive CbOutcome : Type where
  | ret (v : Val) : CbOutcome
  | throw (e : Val) : CbOutcome

namespace Try

/-- SyncRun translates `_Try.Sync` (ecosystem.resu `public.try.ts` lines
71-92).  The callback is given by its outcome; `catchFn` is the optional
user `catch` handler (`none` = the single-callback / no-catch forms, for
which the source installs the default `(data) => Error({data, log:false})`).
It returns the produced Result paired with the argument the catch handler
was invoked with (`none` when the catch path never ran). -/
def SyncRun (cb : CbOutcome) (catchFn : Option (Val → Val)) : Val × Option Val :=
  match cb with
  | .ret v => (if IsResult v then v else OkFrom v none, none)
  | .throw e =>
      let cf := catchFn.getD (fun d => Error d none)
      let c := cf e
      (if IsResult c then c else ErrorFrom c none, some e)

/-- ABORT_OPERATION_NAME translates the reserved abort name of
ecosystem.resu `public.try.ts` line 97. -/
def ABORT_OPERATION_NAME : String := "AbortOperation"

/-- AbortOperationInstance translates `new AbortOperationError()`
(ecosystem.resu `public.try.ts` lines 103-106): a host `Error` instance
whose `name` is the reserved abort name. -/
def AbortOperationInstance : Val := .exn ABORT_OPERATION_NAME 0

/-- isAbortNamed translates the catch-clause test of ecosystem.resu
`public.try.ts` line 235: `error instanceof Error && error.name ===
ABORT_OPERATION_NAME`. -/
def isAbortNamed : Val → Bool
  | .exn n _ => n = ABORT_OPERATION_NAME
  | _ => false

/-- AsyncOutcome models how the awaited race over the `try` promise
settles: the promise resolves with a value, rejects with a value, or is
still pending when the cancellation event fires. -/
inductive AsyncOutcome : Type where
  | resolves (v : Val) : AsyncOutcome
  | rejects (e : Val) : AsyncOutcome
  | abortFires : AsyncOutcome

/-- AsyncRun translates `_Try.Async` (ecosystem.resu `public.try.ts`
lines 197-245).  `signal` is `none` when no cancellation token is
configured and `some aborted` otherwise, with `aborted` the token state
before invocation.  The result is `none` when the call never settles
(no token is configured, so no abort race exists, and the `try` promise
never settles); otherwise it is the produced Result, whether the `try`
callback was invoked, and the argument the user `catch` handler was
invoked with (`none` when that handler never ran).  The arm for an abort
firing mid-race inlines the source's catch clause applied to the
`AbortOperationError` rejection: its name matches, so line 236 runs and
the user catch is bypassed. -/
def AsyncRun (signal : Option Bool) (outcome : AsyncOutcome)
    (catchFn : Option (Val → Val)) : Option (Val × Bool × Option Val) :=
  if signal = some true then
    some (Error AbortOperationInstance (some ABORT_OPERATION_NAME), false, none)
  else
    let cf := catchFn.getD (fun d => Error d none)
    match outcome, signal with
    | .abortFires, none => none
    | .abortFires, some _ =>
        some (ErrorFrom AbortOperationInstance (some (some ABORT_OPERATION_NAME)), true, none)
    | .resolves v, _ =>
        some (if IsResult v then v else OkFrom v none, true, none)
    | .rejects e, _ =>
        if isAbortNamed e then
          some (ErrorFrom e (some (some ABORT_OPERATION_NAME)), true, none)
        else
          let c := cf e
          some (if IsResult c then c else ErrorFrom c none, true, some e)

end Try

namespace Logger

/-- EngineBehavior models one invocation of an installed `Logger.Engine`
handler (src/unnamed/part_006: `null | ((result) => Promise<any>)`).  A
JavaScript function invocation either returns a value — here always a
promise, which may later reject — or throws synchronously before
returning. -/
inductive EngineBehavior : Type where
  | returnsPromise (rejectsLater : Bool) : EngineBehavior
  | throwsSync (e : Val) : EngineBehavior

/-- State models the `_Logger` module (ecosystem.resu `logger/index.ts`):
the two process-wide flags and the optional engine slot, the installed
engine being abstracted by its behavior on each Result. -/
structure State : Type where
  LogOkResult : Bool
  LogErrorResult : Bool
  Engine : Option (Val → EngineBehavior)

/-- runEngine models the unguarded statement
`if (logAllowed && _Logger.Engine) _Logger.Engine!(result)`
(src/unnamed/part_003 lines 42-43 and part_002 alike): when the engine is
invoked and throws synchronously, the exception propagates out of the
constructor (`Except.error`); a returned promise is discarded, so a later
rejection cannot reach the constructor's caller.  The returned list
records the engine's invocations. -/
def runEngine (L : State) (logAllowed : Bool) (result : Val) :
    Except Val (List Val) :=
  match L.Engine with
  | none => .ok []
  | some eng =>
      if logAllowed then
        match eng result with
        | .returnsPromise _ => .ok [result]
        | .throwsSync e => .error e
      else .ok []

/-- OkRun translates the full `_Ok.Ok` constructor body
(src/unnamed/part_003 lines 29-43): build the Result, compute
`logAllowed = params?.log ?? _Logger.LogOkResult`, run the engine, and
return the Result.  The value is the constructed Result paired with the
engine's invocations, or the propagated exception. -/
def OkRun (L : State) (data : Val) (tag : Option String) (log : Option Bool) :
    Except Val (Val × List Val) :=
  let result := Ok data tag
  let logAllowed := log.getD L.LogOkResult
  match runEngine L logAllowed result with
  | .ok calls => .ok (result, calls)
  | .error e => .error e

/-- ErrorRun translates the full `_Error.Error` constructor body
(src/unnamed/part_002): as `OkRun`, with `LogErrorResult` as the global
fallback flag. -/
def ErrorRun (L : State) (data : Val) (tag : Option String) (log : Option Bool) :
    Except Val (Val × List Val) :=
  let result := Error data tag
  let logAllowed := log.getD L.LogErrorResult
  match runEngine L logAllowed result with
  | .ok calls => .ok (result, calls)
  | .error e => .error e

end Logger

/-- Step models a registered pipe transformer. -/
abbrev Step := Val → Val

namespace Pipe

/-- ecoCallLoop translates the `for (const handler of handlers)` loop of
the zero-argument call of the ecosystem.resu `_Pipe.Sync`
(src/unnamed/part_005 lines 158-164):
`result = OkFromUnlessError(handler(result)); if (IsError(result)) return
result`.  After the loop the source function body ends without a `return`
statement, so the call evaluates to `undefined`, modelled as `none`. -/
def ecoCallLoop : List Step → Val → Option Val
  | [], _ => none
  | h :: hs, r =>
      let r2 := OkFromUnlessError (h r) none
      if IsError r2 then some r2 else ecoCallLoop hs r2

/-- ecoCall translates the zero-argument call of the ecosystem.resu
`_Pipe.Sync` built from `init` and the registered `handlers`
(src/unnamed/part_005 lines 152-169): start from
`OkFromUnlessError(initialValue)` and run the loop. -/
def ecoCall (init : Val) (handlers : List Step) : Option Val :=
  ecoCallLoop handlers (OkFromUnlessError init none)

end Pipe

end Resu

namespace Src

open Resu (Val truthy IsOk IsError IsResult getData tagOf)

/-- Ok translates the `_Ok.Ok` constructor of the src/src generation
(`src/src/modules/result/index.ts` concatenated `public.ok.ts`, lines
86-97): `data: (params?.data || null)` and `tag: (params?.tag || null)` —
in this generation every falsy data value collapses to `null`. -/
def Ok (data : Val) (tag : Option String) : Val :=
  .ok (if truthy data then data else .null)
    (match tag with | some "" => none | t => t)

/-- Error translates the `_Error.Error` constructor of the src/src
generation (`src/src/modules/result/partials/public.error.ts`), identical
in shape to its `Ok`. -/
def Error (data : Val) (tag : Option String) : Val :=
  .error (if truthy data then data else .null)
    (match tag with | some "" => none | t => t)

/-- OkFrom translates `_Ok.OkFrom` of the src/src generation
(`src/src/modules/result/index.ts` lines 146-160):
`IsOk(value) ? Ok({...value, tag: tag || value.tag}) : Ok({data: value,
tag})` — the tag overrides by truthiness and an Error value is wrapped
whole as the new data, not unwrapped. -/
def OkFrom (value : Val) (tag : Option String) : Val :=
  match value with
  | .ok d t => Ok d (match tag with | some s => if s = "" then t else some s | none => t)
  | v => Ok v tag

/-- OkFromUnlessError of the src/src generation (inherited unchanged in
shape: pass an Error through, otherwise `OkFrom`). -/
def OkFromUnlessError (value : Val) (tag : Option String) : Val :=
  if IsError value then value else OkFrom value tag

/-- SyncPipe models the closure state of a built src/src `_Pipe.Sync`
(`src/src/modules/flow/partials/public.pipe.ts` lines 84-141): the
`transformers` array and the mutable `lastResult` binding, which the
execution loop reassigns and which persists between calls of the same
built pipe. -/
structure SyncPipe : Type where
  transformers : List Resu.Step
  lastResult : Val

/-- build models constructing `_Pipe.Sync(init)` and then registering
`steps` in order (each one-argument call pushes onto `transformers`,
lines 94-99); `lastResult` starts as `OkFromUnlessError(init)` (lines
89-91). -/
def build (init : Val) (steps : List Resu.Step) : SyncPipe :=
  { transformers := steps, lastResult := OkFromUnlessError init none }

/-- callLoop translates the execution loop of the src/src pipe (lines
107-117): `result = transformer(lastResult); if (IsError(result)) return
result; lastResult = OkFrom(result)`, finally `return lastResult`.  It
returns the call's return value together with the final value of the
mutated `lastResult` binding. -/
def callLoop : List Resu.Step → Val → Val × Val
  | [], last => (last, last)
  | t :: ts, last =>
      let r := t last
      if IsError r then (r, last)
      else callLoop ts (OkFrom r none)

/-- call translates a zero-argument call of the built src/src pipe
(lines 101-118): if the current `lastResult` is an Error return it,
otherwise run the loop.  The updated pipe state carries the mutated
`lastResult`, which the source keeps for the next call. -/
def call (p : SyncPipe) : Val × SyncPipe :=
  if IsError p.lastResult then (p.lastResult, p)
  else
    let (ret, last) := callLoop p.transformers p.lastResult
    (ret, { p with lastResult := last })

/-- IterRet models the value a generator returns (as opposed to yields):
the src/src iterator returns either a JavaScript array of Results or a
single Result. -/
inductive IterRet : Type where
  | arr (xs : List Val) : IterRet
  | single (v : Val) : IterRet

/-- iterLoop translates the loop of the src/src pipe's
`Symbol.iterator` generator (lines 128-136).  The generator body contains
no `yield` statement, so the list of yielded values is empty in every
arm; the loop only recomputes `lastResult` and picks the generator's
return value (`results` — the singleton array captured before the loop,
never appended to — or the first Error). -/
def iterLoop : List Resu.Step → Val → List Val → List Val × IterRet × Val
  | [], last, results => ([], .arr results, last)
  | t :: ts, last, results =>
      let r := t last
      if IsError r then ([], .single r, last)
      else iterLoop ts (OkFrom r none) results

/-- iter translates the src/src pipe's `Symbol.iterator` generator body
(lines 121-138): the early `return [lastResult]` on an Error initial
value, the `results` array holding only `OkFromUnlessError(lastResult)`,
the loop, and the final `return results`.  Its value is the sequence of
yielded items (what `for..of` consumes — always empty, the body never
yields), the generator's return value, and the pipe state with the
mutated `lastResult`. -/
def iter (p : SyncPipe) : List Val × IterRet × SyncPipe :=
  if IsError p.lastResult then ([], .arr [p.lastResult], p)
  else
    let results := [OkFromUnlessError p.lastResult none]
    let (ys, ret, last) := iterLoop p.transformers p.lastResult results
    (ys, ret, { p with lastResult := last })

end Src

namespace Resu

/-- asInt reads a number out of a `Val` for the concrete step functions
below (they are only ever applied to numeric data, mirroring the repo's
own pipe tests). -/
def asInt : Val → Int
  | .num n => n
  | _ => 0

/-- stepDouble is the step `x => x.data * 2` from the repo's pipe tests
and the spec's examples. -/
def stepDouble : Step := fun x => Val.num (2 * asInt (getData x))

/-- stepPlusOne is the step `x => x.data + 1` from the spec's example
`Pipe.Sync(1)(x => x.data * 2)(x => x.data + 1)`. -/
def stepPlusOne : Step := fun x => Val.num (asInt (getData x) + 1)

/-- stepErrE is the step `_ => Result.Error({tag: "Error"})` from the
repo's pipe tests (an always-failing middle step). -/
def stepErrE : Step := fun _ => Val.error Val.null (some "Error")

end Resu

namespace Resu

/-- isOk_OkFrom records that `OkFrom` always builds a genuine Ok. -/
theorem isOk_OkFrom (v : Val) (t : TagArg) : IsOk (OkFrom v t) = true := by
  cases v <;> rfl

/-- isError_ErrorFrom records that `ErrorFrom` always builds a genuine
Error. -/
theorem isError_ErrorFrom (v : Val) (t : TagArg) : IsError (ErrorFrom v t) = true := by
  cases v <;> rfl

/-- isResult_OkFromUnlessError records that `OkFromUnlessError` always
returns a Result. -/
theorem isResult_OkFromUnlessError (v : Val) (t : TagArg) :
    IsResult (OkFromUnlessError v t) = true := by
  unfold OkFromUnlessError
  by_cases h : IsError v = true
  · simp [h, IsResult]
  · simp [h, IsResult, isOk_OkFrom]

end Resu

open Resu (Val)

/-- C1: evaluation of the ecosystem.resu Sync pipe (src/unnamed/part_005)
at the failing input.  The pipe `Pipe.Sync(1)(x => x.data * 2)` called
with zero arguments evaluates to `undefined` (`none`): the zero-argument
branch of the source ends without a return statement on the success path.
The claim — and the repository's own pipe test "The result of Pipe is
always a Result" — requires the final accumulated Ok, which the second
conjunct computes: the step's normalized output is `Ok` with data 2, yet
it is never returned. -/
theorem C1_pipe_success_path_returns_undefined :
    Resu.Pipe.ecoCall (Val.num 1) [Resu.stepDouble] = none ∧
    Resu.OkFromUnlessError (Resu.stepDouble (Resu.OkFromUnlessError (Val.num 1) none)) none
      = Val.ok (Val.num 2) none := by
  exact ⟨rfl, rfl⟩

/-- C2: evaluation of the src/src Sync pipe at the failing input.  The
built pipe `Pipe.Sync(1)(x => x.data * 2)(x => x.data + 1)` yields `Ok`
with data 3 on the first zero-argument call, but the closure's
`lastResult` binding is mutated by the run, so the second call continues
from `Ok 3` and yields `Ok` with data 7 — not an independently computed
`Ok 3` as the claim (and the repository's own test "Pipe does not store
the result of the previous call in its internal state") requires. -/
theorem C2_second_call_not_independent :
    (Src.call (Src.build (Val.num 1) [Resu.stepDouble, Resu.stepPlusOne])).1
      = Val.ok (Val.num 3) none ∧
    (Src.call (Src.call (Src.build (Val.num 1) [Resu.stepDouble, Resu.stepPlusOne])).2).1
      = Val.ok (Val.num 7) none := by
  exact ⟨rfl, rfl⟩

/-- C3: evaluation of the src/src pipe's iterator at the failing input.
For the pipe whose second of three steps returns `Error({tag:"E"-like})`,
iterating produces no items at all: the generator body contains no
`yield` statement, so the per-step Results never reach the consumer (they
end up only in the generator's return value, which `for..of` discards —
the second conjunct shows the Error ends up there).  The claim — and the
repository's own iteration test — requires the produced sequence to end
with that Error. -/
theorem C3_iteration_yields_nothing :
    (Src.iter (Src.build (Val.num 1) [Resu.stepDouble, Resu.stepErrE, Resu.stepDouble])).1
      = ([] : List Val) ∧
    (Src.iter (Src.build (Val.num 1) [Resu.stepDouble, Resu.stepErrE, Resu.stepDouble])).2.1
      = Src.IterRet.single (Val.error Val.null (some "Error")) := by
  exact ⟨rfl, rfl⟩

/-- C4: for every behavior of the wrapped promise and every (or no) user
catch handler, `Try.Async` (ecosystem.resu `public.try.ts`) given a token
already in the cancelled state resolves to the Error tagged with the
reserved abort tag with the `try` callback never invoked (the `false`
component); and when the token is not yet cancelled but cancellation
fires while the try promise is pending, it resolves to the same
abort-tagged Error with the user catch handler never invoked (the final
`none` component). -/
theorem C4_async_abort_precheck_and_race :
    (∀ (out : Resu.Try.AsyncOutcome) (cf : Option (Val → Val)),
      Resu.Try.AsyncRun (some true) out cf =
        some (Val.error Resu.Try.AbortOperationInstance
          (some Resu.Try.ABORT_OPERATION_NAME), false, none)) ∧
    (∀ cf : Option (Val → Val),
      Resu.Try.AsyncRun (some false) Resu.Try.AsyncOutcome.abortFires cf =
        some (Val.error Resu.Try.AbortOperationInstance
          (some Resu.Try.ABORT_OPERATION_NAME), true, none)) := by
  exact ⟨fun out cf => rfl, fun cf => rfl⟩

/-- C10: in a `Try.Async` call configured with a cancellation token that
is not in the aborted state, a rejection of the try promise with any
`Error` instance whose `name` equals the reserved abort name (any
identity `n`, so any provenance) resolves to the abort-tagged
`Result.Error` and the user catch handler is never invoked (final `none`
component): abort detection is by error name alone. -/
theorem C10_abort_detected_by_name (n : Nat) (cf : Option (Val → Val)) :
    Resu.Try.AsyncRun (some false)
        (Resu.Try.AsyncOutcome.rejects (Val.exn Resu.Try.ABORT_OPERATION_NAME n)) cf =
      some (Val.error (Val.exn Resu.Try.ABORT_OPERATION_NAME n)
        (some Resu.Try.ABORT_OPERATION_NAME), true, none) := by
  rfl

/-- C5 counterexample: `Try.Sync(() => { throw undefined })` with the
default catch handler yields an Error whose `data` is `null`, not the
thrown value `undefined` — the default handler's `Error({data, log:false})`
construction normalizes an undefined payload to the null sentinel, so the
claim's "Error whose data is the thrown value" fails at this input. -/
theorem C5_counterexample_thrown_undefined :
    Resu.Try.SyncRun (Resu.CbOutcome.throw Val.undefined) none
      = (Val.error Val.null none, some Val.undefined) ∧
    Resu.getData (Resu.Try.SyncRun (Resu.CbOutcome.throw Val.undefined) none).1 ≠ Val.undefined := by
  exact ⟨rfl, by decide⟩

/-- C5 (amended): for every callback, `Try.Sync` (ecosystem.resu
`public.try.ts` lines 71-92) invokes it and: a returned Result is passed
through unchanged; a returned plain value is wrapped as Ok; on a throw
the catch handler receives the caught exception (the `some e` component),
the default handler producing an untagged, unlogged Error whose data is
the thrown value after constructor normalization (a thrown `undefined` is
stored as `null`); a catch return that is already a Result passes
through, any other is wrapped as Error; and the call always returns a
Result rather than throwing. -/
theorem C5_try_sync_behavior :
    (∀ (cf : Option (Val → Val)) (r : Val), Resu.IsResult r = true →
      Resu.Try.SyncRun (Resu.CbOutcome.ret r) cf = (r, none)) ∧
    (∀ (cf : Option (Val → Val)) (v : Val), Resu.IsResult v = false →
      Resu.Try.SyncRun (Resu.CbOutcome.ret v) cf = (Resu.OkFrom v none, none) ∧
        Resu.IsOk (Resu.OkFrom v none) = true) ∧
    (∀ e : Val,
      Resu.Try.SyncRun (Resu.CbOutcome.throw e) none = (Resu.Error e none, some e) ∧
      Resu.tagOf (Resu.Error e none) = none ∧
      (∀ L : Resu.Logger.State,
        Resu.Logger.ErrorRun L e none (some false) = Except.ok (Resu.Error e none, []))) ∧
    (∀ (e : Val) (f : Val → Val), Resu.IsResult (f e) = true →
      Resu.Try.SyncRun (Resu.CbOutcome.throw e) (some f) = (f e, some e)) ∧
    (∀ (e : Val) (f : Val → Val), Resu.IsResult (f e) = false →
      Resu.Try.SyncRun (Resu.CbOutcome.throw e) (some f)
        = (Resu.ErrorFrom (f e) none, some e)) ∧
    (∀ (cb : Resu.CbOutcome) (cf : Option (Val → Val)),
      Resu.IsResult (Resu.Try.SyncRun cb cf).1 = true) := by
  refine ⟨?_, ?_, ?_, ?_, ?_, ?_⟩
  · intro cf r h
    simp [Resu.Try.SyncRun, h]
  · intro cf v h
    simp [Resu.Try.SyncRun, h, Resu.isOk_OkFrom]
  · intro e
    refine ⟨rfl, rfl, ?_⟩
    intro L
    cases h : L.Engine <;>
      simp [Resu.Logger.ErrorRun, Resu.Logger.runEngine, h]
  · intro e f h
    simp [Resu.Try.SyncRun, h]
  · intro e f h
    simp [Resu.Try.SyncRun, h]
  · intro cb cf
    cases cb with
    | ret v =>
        by_cases h : Resu.IsResult v = true <;>
          simp_all [Resu.Try.SyncRun, Resu.IsResult, Resu.isOk_OkFrom]
    | throw e =>
        by_cases h :
            Resu.IsResult ((cf.getD (fun d => Resu.Error d none)) e) = true <;>
          simp_all [Resu.Try.SyncRun, Resu.IsResult, Resu.isError_ErrorFrom]

/-- C5 witness: the amended theorem applied at concrete inputs — a
returned Ok passes through unchanged, a returned plain `1` is wrapped, a
thrown Error instance lands as the untagged Error's data, and a catch
handler returning a Result has it passed through. -/
theorem C5_try_sync_witness :
    Resu.Try.SyncRun (Resu.CbOutcome.ret (Val.ok (Val.num 1) (some "SomeOk"))) none
      = (Val.ok (Val.num 1) (some "SomeOk"), none) ∧
    Resu.Try.SyncRun (Resu.CbOutcome.ret (Val.num 1)) none
      = (Resu.OkFrom (Val.num 1) none, none) ∧
    Resu.Try.SyncRun (Resu.CbOutcome.throw (Val.exn "Error" 5)) none
      = (Resu.Error (Val.exn "Error" 5) none, some (Val.exn "Error" 5)) ∧
    Resu.Try.SyncRun (Resu.CbOutcome.throw Val.null)
        (some (fun _ => Val.error (Val.num 1) (some "Y")))
      = (Val.error (Val.num 1) (some "Y"), some Val.null) := by
  refine ⟨C5_try_sync_behavior.1 none _ (by decide),
    (C5_try_sync_behavior.2.1 none _ (by decide)).1,
    (C5_try_sync_behavior.2.2.1 _).1, ?_⟩
  exact C5_try_sync_behavior.2.2.2.1 Val.null
    (fun _ => Val.error (Val.num 1) (some "Y")) (by decide)

/-- C6: for every Result and handler map, `Match` (ecosystem.resu
`public.match.ts` lines 193-208) computes the candidate key as
"status:tag" for a non-null tag and "status" otherwise; looks the
compound key up first, falls back on the bare-status handler, and with
neither present returns the original Result itself; a found handler is
invoked with the Result as its sole argument and its return normalized by
`OkFromUnlessError`: a raw value becomes Ok, an Error passes through
untouched, and an Ok passes through as returned. -/
theorem C6_match_dispatch :
    (∀ (r : Val) (t : String), Resu.tagOf r = some t → t ≠ "" →
      Resu.matchKey r = Resu.statusStr r ++ ":" ++ t) ∧
    (∀ r : Val, Resu.tagOf r = none → Resu.matchKey r = Resu.statusStr r) ∧
    (∀ (r : Val) (m : Resu.Matcher) (f : Val → Val),
      m.lookup (Resu.matchKey r) = some f →
      Resu.Match r m = Resu.OkFromUnlessError (f r) none) ∧
    (∀ (r : Val) (m : Resu.Matcher) (f : Val → Val),
      m.lookup (Resu.matchKey r) = none → m.lookup (Resu.statusStr r) = some f →
      Resu.Match r m = Resu.OkFromUnlessError (f r) none) ∧
    (∀ (r : Val) (m : Resu.Matcher),
      m.lookup (Resu.matchKey r) = none → m.lookup (Resu.statusStr r) = none →
      Resu.Match r m = r) ∧
    (∀ v : Val, Resu.IsResult v = false →
      Resu.OkFromUnlessError v none = Resu.OkFrom v none ∧
        Resu.IsOk (Resu.OkFrom v none) = true) ∧
    (∀ v : Val, Resu.IsError v = true → Resu.OkFromUnlessError v none = v) ∧
    (∀ (d : Val) (t : Option String), Resu.Normalized (Val.ok d t) = true →
      Resu.OkFromUnlessError (Val.ok d t) none = Val.ok d t) := by
  refine ⟨?_, ?_, ?_, ?_, ?_, ?_, ?_, ?_⟩
  · intro r t ht hne
    simp [Resu.matchKey, ht, hne]
  · intro r ht
    simp [Resu.matchKey, ht]
  · intro r m f hf
    simp [Resu.Match, hf]
  · intro r m f hk hf
    simp [Resu.Match, hk, hf]
  · intro r m hk hs
    simp [Resu.Match, hk, hs]
  · intro v hv
    have hne : Resu.IsError v = false := by
      cases v <;> simp_all [Resu.IsResult, Resu.IsError, Resu.IsOk]
    exact ⟨by simp [Resu.OkFromUnlessError, hne], Resu.isOk_OkFrom v none⟩
  · intro v hv
    simp [Resu.OkFromUnlessError, hv]
  · intro d t hn
    simp only [Resu.Normalized, Bool.and_eq_true, decide_eq_true_eq] at hn
    simp [Resu.OkFromUnlessError, Resu.IsError, Resu.OkFrom, Resu.Ok, hn.1, hn.2]

/-- C6 witness: the theorem applied at concrete inputs — a tagged Ok
dispatched through its compound key to a raw-returning handler, and an
Error matched against an empty map returned as itself. -/
theorem C6_match_witness :
    Resu.Match (Val.ok Val.null (some "Success"))
        [("ok:Success", fun _ => Val.sym 3)]
      = Resu.OkFromUnlessError (Val.sym 3) none ∧
    Resu.Match (Val.error Val.null (some "NotFound")) ([] : Resu.Matcher)
      = Val.error Val.null (some "NotFound") := by
  exact ⟨C6_match_dispatch.2.2.1 (Val.ok Val.null (some "Success"))
      [("ok:Success", fun _ => Val.sym 3)] (fun _ => Val.sym 3) rfl,
    C6_match_dispatch.2.2.2.2.1 (Val.error Val.null (some "NotFound"))
      ([] : Resu.Matcher) rfl rfl⟩

/-- C7 counterexample: `OkFrom(undefined)` stores the null sentinel, so
`OkFrom(v).data === v` fails at the non-Result value `undefined` — the
constructor behind `OkFrom` normalizes an undefined payload to `null`. -/
theorem C7_counterexample_okfrom_undefined :
    Resu.OkFrom Val.undefined none = Val.ok Val.null none ∧
    Resu.getData (Resu.OkFrom Val.undefined none) ≠ Val.undefined := by
  exact ⟨rfl, by decide⟩

/-- C7 (amended): for every non-Result value v other than `undefined`,
`OkFrom(v, tag?)` (resp. `ErrorFrom`) returns a fresh Result of the
target variant with data === v (an undefined input is stored as the null
sentinel); for every Result of the same variant the data is preserved and
the tag kept unless a new tag is explicitly supplied, which then
overrides; and for every Result of the opposite variant its data — not
the Result itself — is carried over, so `OkFrom(r).data === r.data` (and
symmetrically for `ErrorFrom`) for all Results r. -/
theorem C7_okfrom_errorfrom_behavior :
    (∀ (v : Val) (tg : Resu.TagArg), Resu.IsResult v = false → v ≠ Val.undefined →
      Resu.IsOk (Resu.OkFrom v tg) = true ∧ Resu.getData (Resu.OkFrom v tg) = v) ∧
    (∀ (d : Val) (t : Option String), Resu.Normalized (Val.ok d t) = true →
      Resu.OkFrom (Val.ok d t) none = Val.ok d t) ∧
    (∀ (d : Val) (t nt : Option String), Resu.Normalized (Val.ok d t) = true →
      Resu.normalizeTag nt = nt →
      Resu.OkFrom (Val.ok d t) (some nt) = Val.ok d nt) ∧
    (∀ (d : Val) (t : Option String), Resu.Normalized (Val.error d t) = true →
      Resu.OkFrom (Val.error d t) none = Val.ok d t) ∧
    (∀ r : Val, Resu.IsResult r = true → Resu.Normalized r = true →
      Resu.getData (Resu.OkFrom r none) = Resu.getData r) ∧
    (∀ (v : Val) (tg : Resu.TagArg), Resu.IsResult v = false → v ≠ Val.undefined →
      Resu.IsError (Resu.ErrorFrom v tg) = true ∧ Resu.getData (Resu.ErrorFrom v tg) = v) ∧
    (∀ (d : Val) (t : Option String), Resu.Normalized (Val.error d t) = true →
      Resu.ErrorFrom (Val.error d t) none = Val.error d t) ∧
    (∀ (d : Val) (t nt : Option String), Resu.Normalized (Val.error d t) = true →
      Resu.normalizeTag nt = nt →
      Resu.ErrorFrom (Val.error d t) (some nt) = Val.error d nt) ∧
    (∀ (d : Val) (t : Option String), Resu.Normalized (Val.ok d t) = true →
      Resu.ErrorFrom (Val.ok d t) none = Val.error d t) ∧
    (∀ r : Val, Resu.IsResult r = true → Resu.Normalized r = true →
      Resu.getData (Resu.ErrorFrom r none) = Resu.getData r) := by
  have hnorm : ∀ (d : Val) (t : Option String),
      (Resu.normalizeData d = d ∧ Resu.normalizeTag t = t) →
      (Resu.Ok d t = Val.ok d t ∧ Resu.Error d t = Val.error d t) := by
    intro d t h
    simp [Resu.Ok, Resu.Error, h.1, h.2]
  refine ⟨?_, ?_, ?_, ?_, ?_, ?_, ?_, ?_, ?_, ?_⟩
  · intro v tg hr hu
    cases v <;>
      simp_all [Resu.OkFrom, Resu.Ok, Resu.getData, Resu.normalizeData,
        Resu.IsOk, Resu.IsResult, Resu.IsError]
  · intro d t hn
    simp only [Resu.Normalized, Bool.and_eq_true, decide_eq_true_eq] at hn
    exact (hnorm d t hn).1 ▸ by simp [Resu.OkFrom, Resu.Ok, hn.1, hn.2]
  · intro d t nt hn hnt
    simp only [Resu.Normalized, Bool.and_eq_true, decide_eq_true_eq] at hn
    simp [Resu.OkFrom, Resu.Ok, hn.1, hnt]
  · intro d t hn
    simp only [Resu.Normalized, Bool.and_eq_true, decide_eq_true_eq] at hn
    simp [Resu.OkFrom, Resu.Ok, hn.1, hn.2]
  · intro r hr hn
    cases r <;>
      simp_all [Resu.OkFrom, Resu.Ok, Resu.getData, Resu.IsResult,
        Resu.IsOk, Resu.IsError, Resu.Normalized]
  · intro v tg hr hu
    cases v <;>
      simp_all [Resu.ErrorFrom, Resu.Error, Resu.getData, Resu.normalizeData,
        Resu.IsOk, Resu.IsResult, Resu.IsError]
  · intro d t hn
    simp only [Resu.Normalized, Bool.and_eq_true, decide_eq_true_eq] at hn
    simp [Resu.ErrorFrom, Resu.Error, hn.1, hn.2]
  · intro d t nt hn hnt
    simp only [Resu.Normalized, Bool.and_eq_true, decide_eq_true_eq] at hn
    simp [Resu.ErrorFrom, Resu.Error, hn.1, hnt]
  · intro d t hn
    simp only [Resu.Normalized, Bool.and_eq_true, decide_eq_true_eq] at hn
    simp [Resu.ErrorFrom, Resu.Error, hn.1, hn.2]
  · intro r hr hn
    cases r <;>
      simp_all [Resu.ErrorFrom, Resu.Error, Resu.getData, Resu.IsResult,
        Resu.IsOk, Resu.IsError, Resu.Normalized]

/-- C7 witness: the amended theorem applied at concrete inputs — a plain
number is wrapped with its data intact, an Ok keeps data and tag, a
supplied tag overrides, and an Error's data is carried into the new Ok. -/
theorem C7_okfrom_witness :
    (Resu.IsOk (Resu.OkFrom (Val.num 5) none) = true ∧
      Resu.getData (Resu.OkFrom (Val.num 5) none) = Val.num 5) ∧
    Resu.OkFrom (Val.ok (Val.num 1) (some "T")) none = Val.ok (Val.num 1) (some "T") ∧
    Resu.OkFrom (Val.ok (Val.num 1) (some "T")) (some (some "U"))
      = Val.ok (Val.num 1) (some "U") ∧
    Resu.OkFrom (Val.error (Val.num 2) (some "E")) none = Val.ok (Val.num 2) (some "E") ∧
    Resu.getData (Resu.ErrorFrom (Val.ok (Val.num 3) none) none) = Val.num 3 := by
  exact ⟨C7_okfrom_errorfrom_behavior.1 (Val.num 5) none (by decide) (by decide),
    C7_okfrom_errorfrom_behavior.2.1 (Val.num 1) (some "T") (by decide),
    C7_okfrom_errorfrom_behavior.2.2.1 (Val.num 1) (some "T") (some "U")
      (by decide) (by decide),
    C7_okfrom_errorfrom_behavior.2.2.2.1 (Val.num 2) (some "E") (by decide),
    C7_okfrom_errorfrom_behavior.2.2.2.2.2.2.2.2.2 (Val.ok (Val.num 3) none)
      (by decide) (by decide)⟩

/-- C8: for every construction through the ecosystem.resu `Ok(params?)` /
`Error(params?)` constructors (via `ResultConstructor`,
`private.helpers.ts` lines 60-77): an undefined `data` — explicit or by
omission — is stored as `null`, while every other value, the falsy `0`,
`""` and `false` included, is preserved as-is; and an empty-string or
omitted `tag` is stored as `null`, while any non-empty string tag is
preserved. -/
theorem C8_constructor_normalization :
    (∀ t : Option String,
      Resu.getData (Resu.Ok Val.undefined t) = Val.null ∧
      Resu.getData (Resu.Error Val.undefined t) = Val.null) ∧
    (∀ (d : Val) (t : Option String), d ≠ Val.undefined →
      Resu.getData (Resu.Ok d t) = d ∧ Resu.getData (Resu.Error d t) = d) ∧
    (∀ d : Val,
      Resu.tagOf (Resu.Ok d (some "")) = none ∧
      Resu.tagOf (Resu.Ok d none) = none ∧
      Resu.tagOf (Resu.Error d (some "")) = none ∧
      Resu.tagOf (Resu.Error d none) = none) ∧
    (∀ (d : Val) (s : String), s ≠ "" →
      Resu.tagOf (Resu.Ok d (some s)) = some s ∧
      Resu.tagOf (Resu.Error d (some s)) = some s) := by
  refine ⟨?_, ?_, ?_, ?_⟩
  · intro t
    exact ⟨rfl, rfl⟩
  · intro d t hd
    by_cases hn : d = Val.null
    · subst hn
      exact ⟨rfl, rfl⟩
    · constructor <;>
        simp [Resu.Ok, Resu.Error, Resu.getData, Resu.normalizeData, hd, hn]
  · intro d
    exact ⟨rfl, rfl, rfl, rfl⟩
  · intro d s hs
    constructor <;>
      simp [Resu.Ok, Resu.Error, Resu.tagOf, Resu.normalizeTag, hs]

/-- C8 witness: the theorem applied at the spec's own inputs — `data: 0`,
`data: ""` and `data: false` are preserved, and a `"SomeTag"` tag
survives while an empty tag becomes null. -/
theorem C8_constructor_witness :
    Resu.getData (Resu.Ok (Val.num 0) none) = Val.num 0 ∧
    Resu.getData (Resu.Ok (Val.str "") none) = Val.str "" ∧
    Resu.getData (Resu.Error (Val.bool false) none) = Val.bool false ∧
    Resu.tagOf (Resu.Ok Val.undefined (some "SomeTag")) = some "SomeTag" := by
  exact ⟨(C8_constructor_normalization.2.1 (Val.num 0) none (by decide)).1,
    (C8_constructor_normalization.2.1 (Val.str "") none (by decide)).1,
    (C8_constructor_normalization.2.1 (Val.bool false) none (by decide)).2,
    (C8_constructor_normalization.2.2.2 Val.undefined "SomeTag" (by decide)).1⟩

/-- C9 counterexample: with logging of Ok results enabled and an
installed engine that throws synchronously, the `Ok` constructor
(src/unnamed/part_003 lines 29-43) propagates the engine's exception to
its caller — the statement `if (logAllowed && Engine) Engine(result)` is
not guarded by any try/catch — falsifying the claim that an exception
raised inside the handler never propagates. -/
theorem C9_counterexample_engine_throw_propagates :
    Resu.Logger.OkRun
        { LogOkResult := true, LogErrorResult := false,
          Engine := some (fun _ => Resu.Logger.EngineBehavior.throwsSync (Val.str "boom")) }
        Val.null none none
      = Except.error (Val.str "boom") := by
  rfl

/-- C9 (amended): on every Ok/Error construction the effective
should-log decision is the per-call `log` parameter when provided,
otherwise the matching global flag (`LogOkResult` for Ok,
`LogErrorResult` for Error); when logging is enabled and an engine is
installed, the engine is invoked with the newly constructed Result, and
the promise it returns — even one that later rejects — never alters the
Result the constructor returns; but the engine call is unguarded, so an
exception the handler raises synchronously propagates to the
constructor's caller. -/
theorem C9_logging_behavior (L : Resu.Logger.State) (d : Val)
    (t : Option String) (lg : Option Bool) :
    (lg.getD L.LogOkResult = false →
      Resu.Logger.OkRun L d t lg = Except.ok (Resu.Ok d t, [])) ∧
    (L.Engine = none →
      Resu.Logger.OkRun L d t lg = Except.ok (Resu.Ok d t, [])) ∧
    (∀ (eng : Val → Resu.Logger.EngineBehavior) (b : Bool),
      L.Engine = some eng → lg.getD L.LogOkResult = true →
      eng (Resu.Ok d t) = Resu.Logger.EngineBehavior.returnsPromise b →
      Resu.Logger.OkRun L d t lg = Except.ok (Resu.Ok d t, [Resu.Ok d t])) ∧
    (∀ (eng : Val → Resu.Logger.EngineBehavior) (e : Val),
      L.Engine = some eng → lg.getD L.LogOkResult = true →
      eng (Resu.Ok d t) = Resu.Logger.EngineBehavior.throwsSync e →
      Resu.Logger.OkRun L d t lg = Except.error e) ∧
    (lg.getD L.LogErrorResult = false →
      Resu.Logger.ErrorRun L d t lg = Except.ok (Resu.Error d t, [])) ∧
    (L.Engine = none →
      Resu.Logger.ErrorRun L d t lg = Except.ok (Resu.Error d t, [])) ∧
    (∀ (eng : Val → Resu.Logger.EngineBehavior) (b : Bool),
      L.Engine = some eng → lg.getD L.LogErrorResult = true →
      eng (Resu.Error d t) = Resu.Logger.EngineBehavior.returnsPromise b →
      Resu.Logger.ErrorRun L d t lg = Except.ok (Resu.Error d t, [Resu.Error d t])) ∧
    (∀ (eng : Val → Resu.Logger.EngineBehavior) (e : Val),
      L.Engine = some eng → lg.getD L.LogErrorResult = true →
      eng (Resu.Error d t) = Resu.Logger.EngineBehavior.throwsSync e →
      Resu.Logger.ErrorRun L d t lg = Except.error e) := by
  refine ⟨?_, ?_, ?_, ?_, ?_, ?_, ?_, ?_⟩
  · intro h
    cases hE : L.Engine <;>
      simp [Resu.Logger.OkRun, Resu.Logger.runEngine, hE, h]
  · intro hE
    simp [Resu.Logger.OkRun, Resu.Logger.runEngine, hE]
  · intro eng b hE h hb
    simp [Resu.Logger.OkRun, Resu.Logger.runEngine, hE, h, hb]
  · intro eng e hE h hb
    simp [Resu.Logger.OkRun, Resu.Logger.runEngine, hE, h, hb]
  · intro h
    cases hE : L.Engine <;>
      simp [Resu.Logger.ErrorRun, Resu.Logger.runEngine, hE, h]
  · intro hE
    simp [Resu.Logger.ErrorRun, Resu.Logger.runEngine, hE]
  · intro eng b hE h hb
    simp [Resu.Logger.ErrorRun, Resu.Logger.runEngine, hE, h, hb]
  · intro eng e hE h hb
    simp [Resu.Logger.ErrorRun, Resu.Logger.runEngine, hE, h, hb]

/-- C9 witness: the amended theorem applied at concrete logger states —
a per-call `log: false` override silences an enabled global flag, an
installed promise-returning engine is invoked exactly once with the new
Result without altering it, and a synchronously throwing engine makes the
Error constructor propagate the exception. -/
theorem C9_logging_witness :
    Resu.Logger.OkRun
        { LogOkResult := true, LogErrorResult := false,
          Engine := some (fun _ => Resu.Logger.EngineBehavior.throwsSync (Val.num 9)) }
        (Val.num 1) none (some false)
      = Except.ok (Resu.Ok (Val.num 1) none, []) ∧
    Resu.Logger.OkRun
        { LogOkResult := true, LogErrorResult := false,
          Engine := some (fun _ => Resu.Logger.EngineBehavior.returnsPromise true) }
        (Val.num 1) none none
      = Except.ok (Resu.Ok (Val.num 1) none, [Resu.Ok (Val.num 1) none]) ∧
    Resu.Logger.ErrorRun
        { LogOkResult := false, LogErrorResult := true,
          Engine := some (fun _ => Resu.Logger.EngineBehavior.throwsSync (Val.num 9)) }
        (Val.num 1) none none
      = Except.error (Val.num 9) := by
  refine ⟨(C9_logging_behavior _ (Val.num 1) none (some false)).1 rfl,
    (C9_logging_behavior _ (Val.num 1) none none).2.2.1
      (fun _ => Resu.Logger.EngineBehavior.returnsPromise true) true rfl rfl rfl,
    (C9_logging_behavior _ (Val.num 1) none none).2.2.2.2.2.2.2
      (fun _ => Resu.Logger.EngineBehavior.throwsSync (Val.num 9)) (Val.num 9)
      rfl rfl rfl⟩
